import Mathlib

/-!
# Verification of the CRM deals pipeline (src/backend/deals.js)

Shallow embedding of the deal store operations of the Express router in
`src/backend/deals.js`: creation (POST /deals), full update (PUT /deals/:id),
status transition (PATCH /deals/:id/status), listing with filters
(GET /deals) and the stats aggregator (GET /deals/stats).

Modelling conventions:
- SQL `numeric` money columns are modelled as `Rat`.
- Timestamps (`now()`, `created_at`, `closed_at`) are opaque `Nat` instants.
- Nullable columns and absent JSON body fields are `Option`.
- JavaScript string falsiness (`undefined` and `""` are falsy) is modelled
  explicitly where the code relies on it (`status || "prospect"`,
  `if (q)`, `description?.trim() || null`, `contact_id || null`).
- Each handler is a pure function from the current table contents (a
  `List Deal`) and the request to the HTTP outcome and the new table
  contents; SQL `UPDATE ... WHERE id` that matches no row leaves the
  table unchanged and reports `rowCount = 0`, i.e. 404.
-/

/-- The fixed status enumeration `ALLOWED_STATUSES` of src/backend/deals.js. -/
def ALLOWED_STATUSES : List String :=
  ["prospect", "qualification", "proposition", "negociation", "gagne", "perdu"]

/-- One row of the `deals` table, with the columns the router reads or
writes.  `probability` and `weighted_amount` are columns maintained by the
database schema (the router only ever reads them, in the stats query). -/
structure Deal where
  id : Nat
  title : String
  description : Option String
  status : String
  amount : Rat
  probability : Rat
  weighted_amount : Rat
  contact_id : Option Nat
  company_id : Option Nat
  assigned_to : Option Nat
  expected_close_date : Option String
  closed_at : Option Nat
  created_at : Nat
deriving DecidableEq, Repr

/-- The JSON request body destructured by POST /deals and PUT /deals/:id:
`{ title, description, status, amount, contact_id, company_id, assigned_to,
expected_close_date }`, every field possibly absent. -/
structure DealBody where
  title : Option String
  description : Option String
  status : Option String
  amount : Option Rat
  contact_id : Option Nat
  company_id : Option Nat
  assigned_to : Option Nat
  expected_close_date : Option String
deriving DecidableEq, Repr

/-- The typed failures of the router: 400 "Titre requis" (ValidationError),
400 "Statut invalide" (InvalidStatus), 404 "Deal introuvable" (NotFound). -/
inductive DealError
  | validationError
  | invalidStatus
  | notFound
deriving DecidableEq, Repr

/-- The expression `status || "prospect"`: JavaScript `||` falls through to the default
when `status` is `undefined` or the empty string. -/
def statusOrDefault : Option String → String
  | none => "prospect"
  | some s => if s = "" then "prospect" else s

/-- Whitespace trimming of a character list from both ends. -/
def trimList (l : List Char) : List Char :=
  ((l.dropWhile Char.isWhitespace).reverse.dropWhile Char.isWhitespace).reverse

/-- JavaScript `String.prototype.trim`: strips leading and trailing
whitespace. -/
def strTrim (s : String) : String := String.mk (trimList s.data)

/-- The expression `description?.trim() || null`: absent stays null, and a string that is
empty after trimming becomes null. -/
def trimOrNull : Option String → Option String
  | none => none
  | some s => if strTrim s = "" then none else some (strTrim s)

/-- The expression `contact_id || null` (same for `company_id`, `assigned_to`): JavaScript
`||` turns the falsy id 0 into null as well as `undefined`/`null`. -/
def idOrNull : Option Nat → Option Nat
  | none => none
  | some n => if n = 0 then none else some n

/-- The expression `expected_close_date || null`: absent or empty string becomes null. -/
def dateOrNull : Option String → Option String
  | none => none
  | some s => if s = "" then none else some s

/-- The trimmed title, with `undefined` reading as `""`; the guard
`if (!title?.trim())` rejects exactly when this is empty. -/
def titleValue : Option String → String
  | none => ""
  | some s => strTrim s

/-- The `CASE WHEN $n::deal_status IN ('gagne','perdu') THEN now() ELSE NULL
END` expression shared by PUT /deals/:id and PATCH /deals/:id/status. -/
def closedFor (s : String) (now : Nat) : Option Nat :=
  if s = "gagne" ∨ s = "perdu" then some now else none

/-- The row the POST /deals INSERT produces.  The INSERT column list does
not include `closed_at`; per the schema the row is created with
`closed_at = null` (the spec's lifecycle: created with `closed_at=null`).
`probability` is likewise not in the column list — the schema derives it
alongside the status — so the created row's value is taken as the
parameter `prob`, and its `weighted_amount` is `amount × probability / 100`
as the schema maintains. -/
def createdRow (b : DealBody) (newId now : Nat) (prob : Rat) : Deal :=
  { id := newId
    title := titleValue b.title
    description := trimOrNull b.description
    status := statusOrDefault b.status
    amount := b.amount.getD 0
    probability := prob
    weighted_amount := b.amount.getD 0 * prob / 100
    contact_id := idOrNull b.contact_id
    company_id := idOrNull b.company_id
    assigned_to := idOrNull b.assigned_to
    expected_close_date := dateOrNull b.expected_close_date
    closed_at := none
    created_at := now }

/-- POST /deals.  Validates the title (`if (!title?.trim())`), defaults
the status (`status || "prospect"`) and validates it against the
enumeration, then INSERTs `createdRow` and returns it with the new
table. -/
def createDeal (deals : List Deal) (b : DealBody) (newId now : Nat) (prob : Rat) :
    Except DealError Deal × List Deal :=
  if titleValue b.title = "" then (.error .validationError, deals)
  else if statusOrDefault b.status ∈ ALLOWED_STATUSES then
    (.ok (createdRow b newId now prob), deals ++ [createdRow b newId now prob])
  else (.error .invalidStatus, deals)

/-- The row produced by the PUT /deals/:id UPDATE for the matched row `d0`:
every listed column is overwritten from the request body, and `closed_at`
is recomputed from the new status; `id`, `created_at`, `probability` and
`weighted_amount` are not in the SET list. -/
def updatedRow (d0 : Deal) (b : DealBody) (now : Nat) : Deal :=
  { d0 with
    title := titleValue b.title
    description := trimOrNull b.description
    status := statusOrDefault b.status
    amount := b.amount.getD 0
    contact_id := idOrNull b.contact_id
    company_id := idOrNull b.company_id
    assigned_to := idOrNull b.assigned_to
    expected_close_date := dateOrNull b.expected_close_date
    closed_at := closedFor (statusOrDefault b.status) now }

/-- The PUT guard `if (status && !ALLOWED_STATUSES.includes(status))`:
true exactly when a non-empty status outside the enumeration was sent. -/
def invalidGivenStatus : Option String → Bool
  | none => false
  | some s => s != "" && !(ALLOWED_STATUSES.contains s)

/-- PUT /deals/:id.  Title required; a non-empty status outside the
enumeration is rejected (`if (status && !ALLOWED_STATUSES.includes(status))`);
then a full-replace UPDATE of all eight body columns plus the recomputed
`closed_at`; 404 when no row has the id. -/
def updateDeal (deals : List Deal) (id : Nat) (b : DealBody) (now : Nat) :
    Except DealError Deal × List Deal :=
  if titleValue b.title = "" then (.error .validationError, deals)
  else if invalidGivenStatus b.status then (.error .invalidStatus, deals)
  else
    match deals.find? (fun d => d.id == id) with
    | none => (.error .notFound, deals)
    | some d0 =>
      let d := updatedRow d0 b now
      (.ok d, deals.map (fun e => if e.id = id then d else e))

/-- PATCH /deals/:id/status.  Validates membership of the requested status
in the enumeration, then an UPDATE that sets only `status` and `closed_at`;
404 when no row has the id. -/
def transitionStatus (deals : List Deal) (id : Nat) (s : String) (now : Nat) :
    Except DealError Deal × List Deal :=
  if s ∈ ALLOWED_STATUSES then
    match deals.find? (fun d => d.id == id) with
    | none => (.error .notFound, deals)
    | some d0 =>
      let d := { d0 with status := s, closed_at := closedFor s now }
      (.ok d, deals.map (fun e => if e.id = id then d else e))
  else (.error .invalidStatus, deals)

/-- DELETE /deals/:id: removes every row with the id; 404 when none. -/
def deleteDeal (deals : List Deal) (id : Nat) :
    Except DealError Unit × List Deal :=
  if deals.any (fun d => d.id == id) then
    (.ok (), deals.filter (fun d => ¬ d.id = id))
  else (.error .notFound, deals)

/-- All suffixes of a character list, longest first (the list itself down
to the empty suffix). -/
def suffixes : List Char → List (List Char)
  | [] => [[]]
  | c :: s => (c :: s) :: suffixes s

/-- Matching of a SQL LIKE pattern against a string (both as character
lists), as Postgres evaluates `LOWER(d.title) LIKE $n`: `%` matches any
sequence (the rest of the pattern must match some suffix of the remaining
text), `_` matches exactly one character, and the default escape
character `\` makes the following pattern character literal.  (Postgres
rejects a pattern ending in a lone escape character; that malformed case
is mapped to no match.) -/
def likeMatch : List Char → List Char → Bool
  | [], s => s.isEmpty
  | c :: p, s =>
    if c = '%' then (suffixes s).any (fun t => likeMatch p t)
    else if c = '\\' then
      match p, s with
      | c2 :: p', c' :: s' => c2 == c' && likeMatch p' s'
      | _, _ => false
    else if c = '_' then
      match s with
      | [] => false
      | _ :: s' => likeMatch p s'
    else
      match s with
      | [] => false
      | c' :: s' => c == c' && likeMatch p s'

/-- Lower-cased character list of a string, modelling both JavaScript's
`q.toLowerCase()` and SQL `LOWER(d.title)`. -/
def lowerStr (s : String) : List Char := s.toList.map Char.toLower

/-- The pattern the handler builds for the `q` filter: percent, lower-cased `q`, percent. -/
def likePattern (q : String) : List Char := '%' :: (lowerStr q ++ ['%'])

/-- The query filters of GET /deals.  `assigned_to` is an id (absent when
the query parameter is missing or empty); `q` is the raw search string. -/
structure ListFilters where
  status : Option String
  assigned_to : Option Nat
  q : Option String
deriving Repr

/-- The guard `if (status && ALLOWED_STATUSES.includes(status))`: the status filter
is applied only for a non-empty member of the enumeration; anything else
is silently ignored. -/
def applyStatusFilter (f : Option String) (l : List Deal) : List Deal :=
  match f with
  | none => l
  | some s =>
    if s ≠ "" ∧ s ∈ ALLOWED_STATUSES then l.filter (fun d => d.status == s) else l

/-- The guard `if (assigned_to)`: exact-match filter on the assignee id. -/
def applyAssignedFilter (f : Option Nat) (l : List Deal) : List Deal :=
  match f with
  | none => l
  | some a => l.filter (fun d => d.assigned_to == some a)

/-- The guard `if (q)`: LIKE filter on the lower-cased title; an empty `q` is falsy
and applies no filter. -/
def applyQFilter (f : Option String) (l : List Deal) : List Deal :=
  match f with
  | none => l
  | some q =>
    if q = "" then l
    else l.filter (fun d => likeMatch (likePattern q) (lowerStr d.title))

/-- Insertion into a list sorted by `created_at` descending. -/
def insertByCreated (d : Deal) : List Deal → List Deal
  | [] => [d]
  | e :: es =>
    if d.created_at ≤ e.created_at then e :: insertByCreated d es
    else d :: e :: es

/-- The ordering `ORDER BY d.created_at DESC`. -/
def sortByCreatedDesc (l : List Deal) : List Deal := l.foldr insertByCreated []

/-- GET /deals: conjunction of the three optional filters, newest first. -/
def listDeals (deals : List Deal) (f : ListFilters) : List Deal :=
  sortByCreatedDesc
    (applyQFilter f.q (applyAssignedFilter f.assigned_to (applyStatusFilter f.status deals)))

/-- The `summary` row of GET /deals/stats. -/
structure StatsSummary where
  total_deals : Nat
  total_value : Rat
  weighted_value : Rat
  won_value : Rat
  active_deals : Nat
deriving DecidableEq, Repr

/-- The summary aggregation of GET /deals/stats: `COUNT(*)`,
`COALESCE(SUM(amount),0)`, `COALESCE(SUM(weighted_amount),0)`,
`COALESCE(SUM(CASE WHEN status='gagne' THEN amount END),0)`, and
`COUNT(CASE WHEN status NOT IN ('gagne','perdu') THEN 1 END)`.
A `Rat` list sum is 0 on the empty list, which is exactly what the
COALESCE wrappers arrange for SQL's NULL empty sums. -/
def dealsSummary (deals : List Deal) : StatsSummary :=
  { total_deals := deals.length
    total_value := (deals.map Deal.amount).sum
    weighted_value := (deals.map Deal.weighted_amount).sum
    won_value := ((deals.filter (fun d => d.status == "gagne")).map Deal.amount).sum
    active_deals :=
      (deals.filter (fun d => d.status != "gagne" && d.status != "perdu")).length }

/-- One row of the `by_status` breakdown of GET /deals/stats. -/
structure StatusRow where
  status : String
  count : Nat
  total : Rat
deriving DecidableEq, Repr

/-- The by-status aggregation of GET /deals/stats: `GROUP BY status` with
`COUNT(*)` and `COALESCE(SUM(amount),0)` per group, ordered by
`ARRAY_POSITION` of the status in the canonical funnel array.  The
`status` column has the Postgres enum type `deal_status`, so every stored
status is one of the six enumeration members and the grouped statuses are
exactly the members present, in enumeration order. -/
def dealsByStatus (deals : List Deal) : List StatusRow :=
  (ALLOWED_STATUSES.filter (fun s => deals.any (fun d => d.status == s))).map
    (fun s =>
      { status := s
        count := (deals.filter (fun d => d.status == s)).length
        total := ((deals.filter (fun d => d.status == s)).map Deal.amount).sum })

/-- Every status stored in the `deals` table is a member of the Postgres
enum `deal_status`, i.e. of `ALLOWED_STATUSES`. -/
def ValidStore (deals : List Deal) : Prop :=
  ∀ d ∈ deals, d.status ∈ ALLOWED_STATUSES

deriving instance DecidableEq for Except

/-- Boolean test that `w` is a prefix of `s` (character lists). -/
def charsStartWith : List Char → List Char → Bool
  | [], _ => true
  | _ :: _, [] => false
  | c :: w, c' :: s => c == c' && charsStartWith w s

/-- Boolean test that `w` occurs contiguously somewhere inside `s`:
case-sensitive substring containment on character lists. -/
def charsContain (w : List Char) : List Char → Bool
  | [] => charsStartWith w []
  | c :: s => charsStartWith w (c :: s) || charsContain w s

/-- The character list contains none of the LIKE metacharacters:
percent, underscore, backslash. -/
def NoLikeMeta (w : List Char) : Prop :=
  ∀ c ∈ w, c ≠ '%' ∧ c ≠ '_' ∧ c ≠ '\\'

/-- Modelled from the spec: the database schema (not part of the
repository sources under src/) stores `probability` alongside the status
and maintains `weighted_amount = amount × probability / 100`, "always
consistent with `amount` and `probability` at read time"; reading a row
back therefore yields that product. -/
def readDeal (d : Deal) : Deal :=
  { d with weighted_amount := d.amount * d.probability / 100 }

/-- Fixture: a fully-populated stored deal used by concrete witnesses. -/
def dealW : Deal :=
  { id := 1, title := "Old", description := some "old", status := "gagne",
    amount := 7, probability := 0, weighted_amount := 0, contact_id := some 3,
    company_id := some 4, assigned_to := some 5, expected_close_date := some "2025-01-01",
    closed_at := some 2, created_at := 1 }

/-- Fixture: an update body that sets status "perdu" and amount 5. -/
def bodyFull : DealBody :=
  ⟨some "New", none, some "perdu", some 5, none, none, none, none⟩

/-- Fixture: the row `updateDeal` produces from `dealW` and `bodyFull` at
instant 9. -/
def dealW1 : Deal :=
  { id := 1, title := "New", description := none, status := "perdu",
    amount := 5, probability := 0, weighted_amount := 0, contact_id := none,
    company_id := none, assigned_to := none, expected_close_date := none,
    closed_at := some 9, created_at := 1 }

/-- Fixture: the row `transitionStatus` produces from `dealW` moving back
to "prospect". -/
def dealW2 : Deal :=
  { id := 1, title := "Old", description := some "old", status := "prospect",
    amount := 7, probability := 0, weighted_amount := 0, contact_id := some 3,
    company_id := some 4, assigned_to := some 5, expected_close_date := some "2025-01-01",
    closed_at := none, created_at := 1 }

/-- Fixture: a minimal valid create body. -/
def bodyCreate : DealBody :=
  ⟨some "T", none, none, none, none, none, none, none⟩

/-- Fixture: the row `createDeal` produces from `bodyCreate`. -/
def dealW3 : Deal :=
  { id := 1, title := "T", description := none, status := "prospect",
    amount := 0, probability := 0, weighted_amount := 0 * 0 / 100, contact_id := none,
    company_id := none, assigned_to := none, expected_close_date := none,
    closed_at := none, created_at := 5 }

/-- Fixture: a lost deal, first in insertion order. -/
def dealP : Deal :=
  { id := 1, title := "P", description := none, status := "perdu",
    amount := 1, probability := 0, weighted_amount := 0, contact_id := none,
    company_id := none, assigned_to := none, expected_close_date := none,
    closed_at := some 3, created_at := 1 }

/-- Fixture: a prospect deal, second in insertion order. -/
def dealQ : Deal :=
  { id := 2, title := "Q", description := none, status := "prospect",
    amount := 2, probability := 0, weighted_amount := 0, contact_id := none,
    company_id := none, assigned_to := none, expected_close_date := none,
    closed_at := none, created_at := 2 }

/-- Fixture: a won deal, third in insertion order. -/
def dealG : Deal :=
  { id := 3, title := "G", description := none, status := "gagne",
    amount := 3, probability := 0, weighted_amount := 0, contact_id := none,
    company_id := none, assigned_to := none, expected_close_date := none,
    closed_at := some 4, created_at := 3 }

/-- Fixture: a store whose statuses arrive as perdu, prospect, gagne. -/
def dealsPPG : List Deal := [dealP, dealQ, dealG]

/-- Fixture: a create body with a whitespace-only title. -/
def bodyBlankTitle : DealBody :=
  ⟨some "  ", none, none, none, none, none, none, none⟩

/-- Fixture: a create body exercising trimming and defaults. -/
def bodyOk : DealBody :=
  ⟨some " Deal ", some " desc ", some "gagne", some 5, some 0, some 2, none, some ""⟩

/-- Fixture: an update body that supplies only the title. -/
def bodyMin : DealBody :=
  ⟨some "New", none, none, none, none, none, none, none⟩

/-- Fixture: a deal titled "abc" for the LIKE filter scenarios. -/
def dealAbc : Deal :=
  { id := 1, title := "abc", description := none, status := "prospect",
    amount := 0, probability := 0, weighted_amount := 0, contact_id := none,
    company_id := none, assigned_to := none, expected_close_date := none,
    closed_at := none, created_at := 1 }

/-- Fixture: a create body with explicit status "gagne". -/
def bodyGagne : DealBody :=
  ⟨some "Big", none, some "gagne", none, none, none, none, none⟩

/-- Fixture: the row `createDeal` produces from `bodyGagne`. -/
def dealGagneCreated : Deal :=
  { id := 1, title := "Big", description := none, status := "gagne",
    amount := 0, probability := 0, weighted_amount := 0 * 0 / 100, contact_id := none,
    company_id := none, assigned_to := none, expected_close_date := none,
    closed_at := none, created_at := 5 }

/-- Fixture: a create body whose status field is the empty string. -/
def bodyEmptyStatus : DealBody :=
  ⟨some "Deal", none, some "", none, none, none, none, none⟩

/-- Fixture: the row `createDeal` produces from `bodyEmptyStatus`. -/
def dealEmptyStatusCreated : Deal :=
  { id := 1, title := "Deal", description := none, status := "prospect",
    amount := 0, probability := 0, weighted_amount := 0 * 0 / 100, contact_id := none,
    company_id := none, assigned_to := none, expected_close_date := none,
    closed_at := none, created_at := 5 }

/-- The derived `closed_at` is non-null exactly for the two terminal
statuses. -/
theorem closedFor_ne_none (s : String) (now : Nat) :
    closedFor s now ≠ none ↔ (s = "gagne" ∨ s = "perdu") := by
  unfold closedFor
  split <;> simp_all

/-- POST /deals rejects an empty or whitespace-only title with 400
"Titre requis" and leaves the table unchanged. -/
theorem createDeal_validation (deals : List Deal) (b : DealBody) (newId now : Nat)
    (prob : Rat) (ht : titleValue b.title = "") :
    createDeal deals b newId now prob = (.error .validationError, deals) := by
  unfold createDeal
  rw [if_pos ht]

/-- POST /deals with a good title and an allowed (possibly defaulted)
status appends exactly the created row. -/
theorem createDeal_ok (deals : List Deal) (b : DealBody) (newId now : Nat) (prob : Rat)
    (ht : titleValue b.title ≠ "") (hs : statusOrDefault b.status ∈ ALLOWED_STATUSES) :
    createDeal deals b newId now prob =
      (.ok (createdRow b newId now prob), deals ++ [createdRow b newId now prob]) := by
  unfold createDeal
  rw [if_neg ht, if_pos hs]

/-- POST /deals rejects a defaulted status outside the enumeration with
400 "Statut invalide" and leaves the table unchanged. -/
theorem createDeal_invalid (deals : List Deal) (b : DealBody) (newId now : Nat) (prob : Rat)
    (ht : titleValue b.title ≠ "") (hs : statusOrDefault b.status ∉ ALLOWED_STATUSES) :
    createDeal deals b newId now prob = (.error .invalidStatus, deals) := by
  unfold createDeal
  rw [if_neg ht, if_neg hs]

/-- The defaulted status falls outside the enumeration exactly when a
non-empty status outside the enumeration was supplied. -/
theorem statusOrDefault_notMem_iff (st : Option String) :
    statusOrDefault st ∉ ALLOWED_STATUSES ↔
      ∃ s, st = some s ∧ s ≠ "" ∧ s ∉ ALLOWED_STATUSES := by
  cases st with
  | none => simp [statusOrDefault, ALLOWED_STATUSES]
  | some s =>
    by_cases h : s = ""
    · subst h
      simp [statusOrDefault, ALLOWED_STATUSES]
    · simp [statusOrDefault, h]

/-- POST /deals answers "Titre requis" exactly for an empty or
whitespace-only (or absent) title. -/
theorem createDeal_validation_iff (deals : List Deal) (b : DealBody) (newId now : Nat)
    (prob : Rat) :
    (createDeal deals b newId now prob).1 = .error .validationError ↔
      titleValue b.title = "" := by
  constructor
  · intro h
    by_contra ht
    by_cases hs : statusOrDefault b.status ∈ ALLOWED_STATUSES
    · rw [createDeal_ok deals b newId now prob ht hs] at h
      exact Except.noConfusion h
    · rw [createDeal_invalid deals b newId now prob ht hs] at h
      simp at h
  · intro ht
    rw [createDeal_validation deals b newId now prob ht]

/-- POST /deals answers "Statut invalide" exactly when the title is good
and a non-empty status outside the enumeration was supplied. -/
theorem createDeal_invalid_iff (deals : List Deal) (b : DealBody) (newId now : Nat)
    (prob : Rat) :
    (createDeal deals b newId now prob).1 = .error .invalidStatus ↔
      (titleValue b.title ≠ "" ∧ ∃ s, b.status = some s ∧ s ≠ "" ∧ s ∉ ALLOWED_STATUSES) := by
  constructor
  · intro h
    by_cases ht : titleValue b.title = ""
    · rw [createDeal_validation deals b newId now prob ht] at h
      simp at h
    · refine ⟨ht, (statusOrDefault_notMem_iff b.status).mp ?_⟩
      by_contra hs
      rw [createDeal_ok deals b newId now prob ht hs] at h
      exact Except.noConfusion h
  · rintro ⟨ht, hex⟩
    rw [createDeal_invalid deals b newId now prob ht
      ((statusOrDefault_notMem_iff b.status).mpr hex)]

/-- PATCH /deals/:id/status rejects a status outside the enumeration and
leaves the table unchanged. -/
theorem transitionStatus_invalid (deals : List Deal) (id now : Nat) (s : String)
    (hs : s ∉ ALLOWED_STATUSES) :
    transitionStatus deals id s now = (.error .invalidStatus, deals) := by
  unfold transitionStatus
  rw [if_neg hs]

/-- PATCH /deals/:id/status answers 404 when no row has the id, leaving
the table unchanged. -/
theorem transitionStatus_notFound (deals : List Deal) (id now : Nat) (s : String)
    (hs : s ∈ ALLOWED_STATUSES) (hfind : deals.find? (fun d => d.id == id) = none) :
    transitionStatus deals id s now = (.error .notFound, deals) := by
  unfold transitionStatus
  rw [if_pos hs, hfind]

/-- PATCH /deals/:id/status on a present row rewrites exactly that row's
status and closed_at. -/
theorem transitionStatus_ok (deals : List Deal) (id now : Nat) (s : String) (d0 : Deal)
    (hs : s ∈ ALLOWED_STATUSES) (hfind : deals.find? (fun d => d.id == id) = some d0) :
    transitionStatus deals id s now =
      (.ok { d0 with status := s, closed_at := closedFor s now },
       deals.map (fun e =>
         if e.id = id then { d0 with status := s, closed_at := closedFor s now } else e)) := by
  unfold transitionStatus
  rw [if_pos hs, hfind]

/-- PUT /deals/:id rejects an empty or whitespace-only title. -/
theorem updateDeal_validation (deals : List Deal) (id now : Nat) (b : DealBody)
    (ht : titleValue b.title = "") :
    updateDeal deals id b now = (.error .validationError, deals) := by
  unfold updateDeal
  rw [if_pos ht]

/-- PUT /deals/:id rejects a non-empty status outside the enumeration. -/
theorem updateDeal_invalid (deals : List Deal) (id now : Nat) (b : DealBody)
    (ht : titleValue b.title ≠ "") (hs : invalidGivenStatus b.status = true) :
    updateDeal deals id b now = (.error .invalidStatus, deals) := by
  unfold updateDeal
  rw [if_neg ht, hs]
  simp

/-- PUT /deals/:id answers 404 when no row has the id. -/
theorem updateDeal_notFound (deals : List Deal) (id now : Nat) (b : DealBody)
    (ht : titleValue b.title ≠ "") (hs : invalidGivenStatus b.status = false)
    (hfind : deals.find? (fun d => d.id == id) = none) :
    updateDeal deals id b now = (.error .notFound, deals) := by
  unfold updateDeal
  rw [if_neg ht, hs]
  simp only [Bool.false_eq_true, if_false, hfind]

/-- PUT /deals/:id on a present row replaces exactly that row with the
fully recomputed one. -/
theorem updateDeal_ok (deals : List Deal) (id now : Nat) (b : DealBody) (d0 : Deal)
    (ht : titleValue b.title ≠ "") (hs : invalidGivenStatus b.status = false)
    (hfind : deals.find? (fun d => d.id == id) = some d0) :
    updateDeal deals id b now =
      (.ok (updatedRow d0 b now),
       deals.map (fun e => if e.id = id then updatedRow d0 b now else e)) := by
  unfold updateDeal
  rw [if_neg ht, hs]
  simp only [Bool.false_eq_true, if_false, hfind]

/-- Inversion: a successful PUT means some row matched the id and the
returned row is its full replacement. -/
theorem updateDeal_ok_inv (deals : List Deal) (id now : Nat) (b : DealBody) (d : Deal)
    (ds : List Deal) (h : updateDeal deals id b now = (.ok d, ds)) :
    ∃ d0, deals.find? (fun e => e.id == id) = some d0 ∧ d = updatedRow d0 b now := by
  by_cases ht : titleValue b.title = ""
  · rw [updateDeal_validation deals id now b ht] at h
    simp at h
  by_cases hs : invalidGivenStatus b.status = true
  · rw [updateDeal_invalid deals id now b ht hs] at h
    simp at h
  rw [Bool.not_eq_true] at hs
  cases hfind : deals.find? (fun e => e.id == id) with
  | none =>
    rw [updateDeal_notFound deals id now b ht hs hfind] at h
    simp at h
  | some d0 =>
    rw [updateDeal_ok deals id now b d0 ht hs hfind] at h
    simp only [Prod.mk.injEq, Except.ok.injEq] at h
    exact ⟨d0, rfl, h.1.symm⟩

/-- Inversion: a successful PATCH means some row matched the id and the
returned row is it with the new status and derived closed_at. -/
theorem transitionStatus_ok_inv (deals : List Deal) (id now : Nat) (s : String) (d : Deal)
    (ds : List Deal) (h : transitionStatus deals id s now = (.ok d, ds)) :
    ∃ d0, deals.find? (fun e => e.id == id) = some d0 ∧
      d = { d0 with status := s, closed_at := closedFor s now } := by
  by_cases hs : s ∈ ALLOWED_STATUSES
  · cases hfind : deals.find? (fun e => e.id == id) with
    | none =>
      rw [transitionStatus_notFound deals id now s hs hfind] at h
      simp at h
    | some d0 =>
      rw [transitionStatus_ok deals id now s d0 hs hfind] at h
      simp only [Prod.mk.injEq, Except.ok.injEq] at h
      exact ⟨d0, rfl, h.1.symm⟩
  · rw [transitionStatus_invalid deals id now s hs] at h
    simp at h

/-- Inversion: a successful POST returns exactly the created row. -/
theorem createDeal_ok_inv (deals : List Deal) (b : DealBody) (newId now : Nat) (prob : Rat)
    (d : Deal) (ds : List Deal) (h : createDeal deals b newId now prob = (.ok d, ds)) :
    d = createdRow b newId now prob := by
  by_cases ht : titleValue b.title = ""
  · rw [createDeal_validation deals b newId now prob ht] at h
    simp at h
  by_cases hs : statusOrDefault b.status ∈ ALLOWED_STATUSES
  · rw [createDeal_ok deals b newId now prob ht hs] at h
    simp only [Prod.mk.injEq, Except.ok.injEq] at h
    exact h.1.symm
  · rw [createDeal_invalid deals b newId now prob ht hs] at h
    simp at h

/-- C1 (amended): after every successful full update (PUT) or status-only
transition (PATCH), the written row has closed_at non-null iff its status
is gagne or perdu; a successful creation (POST) always writes
closed_at = null — even when the deal is created directly with status
gagne or perdu — because the INSERT does not set closed_at. -/
theorem closed_at_invariant_on_writes
    (deals₁ : List Deal) (id₁ now₁ : Nat) (b₁ : DealBody) (d₁ : Deal) (ds₁ : List Deal)
    (hu : updateDeal deals₁ id₁ b₁ now₁ = (.ok d₁, ds₁))
    (deals₂ : List Deal) (id₂ now₂ : Nat) (s₂ : String) (d₂ : Deal) (ds₂ : List Deal)
    (htr : transitionStatus deals₂ id₂ s₂ now₂ = (.ok d₂, ds₂))
    (deals₃ : List Deal) (b₃ : DealBody) (newId₃ now₃ : Nat) (prob₃ : Rat)
    (d₃ : Deal) (ds₃ : List Deal)
    (hc : createDeal deals₃ b₃ newId₃ now₃ prob₃ = (.ok d₃, ds₃)) :
    (d₁.closed_at ≠ none ↔ (d₁.status = "gagne" ∨ d₁.status = "perdu"))
    ∧ (d₂.closed_at ≠ none ↔ (d₂.status = "gagne" ∨ d₂.status = "perdu"))
    ∧ d₃.closed_at = none := by
  obtain ⟨e0, -, rfl⟩ := updateDeal_ok_inv deals₁ id₁ now₁ b₁ d₁ ds₁ hu
  obtain ⟨f0, -, rfl⟩ := transitionStatus_ok_inv deals₂ id₂ now₂ s₂ d₂ ds₂ htr
  have h3 := createDeal_ok_inv deals₃ b₃ newId₃ now₃ prob₃ d₃ ds₃ hc
  subst h3
  refine ⟨?_, ?_, rfl⟩
  · exact closedFor_ne_none (statusOrDefault b₁.status) now₁
  · exact closedFor_ne_none s₂ now₂

/-- C1: witness instantiating the amended invariant at one concrete
update, one concrete transition and one concrete creation. -/
theorem closed_at_invariant_on_writes_witness :
    (dealW1.closed_at ≠ none ↔ (dealW1.status = "gagne" ∨ dealW1.status = "perdu"))
    ∧ (dealW2.closed_at ≠ none ↔ (dealW2.status = "gagne" ∨ dealW2.status = "perdu"))
    ∧ dealW3.closed_at = none :=
  closed_at_invariant_on_writes [dealW] 1 9 bodyFull dealW1 [dealW1] rfl
    [dealW] 1 9 "prospect" dealW2 [dealW2] rfl
    [] bodyCreate 1 5 0 dealW3 [dealW3] rfl

/-- C1: counterexample to the claim as stated — a deal created directly
with status "gagne" is persisted with closed_at = null, violating the
"non-null iff gagne/perdu" biconditional for creations. -/
theorem create_closed_at_counterexample :
    createDeal [] bodyGagne 1 5 0 = (.ok dealGagneCreated, [dealGagneCreated])
    ∧ dealGagneCreated.status = "gagne"
    ∧ dealGagneCreated.closed_at = none
    ∧ ¬ (dealGagneCreated.closed_at ≠ none ↔
          (dealGagneCreated.status = "gagne" ∨ dealGagneCreated.status = "perdu")) :=
  ⟨rfl, rfl, rfl, fun h => h.mpr (Or.inl rfl) rfl⟩

/-- C2: for every existing deal id and every status in the enumeration,
the status transition stores the new status and stores closed_at non-null
iff the new status is gagne or perdu, null for the other four. -/
theorem transition_sets_closed_iff_won_or_lost
    (deals : List Deal) (id now : Nat) (s : String) (d0 : Deal)
    (hs : s ∈ ALLOWED_STATUSES) (hfind : deals.find? (fun d => d.id == id) = some d0) :
    ∃ d ds, transitionStatus deals id s now = (.ok d, ds) ∧ d.status = s ∧
      ((∃ t, d.closed_at = some t) ↔ (s = "gagne" ∨ s = "perdu")) ∧
      (¬ (s = "gagne" ∨ s = "perdu") → d.closed_at = none) ∧
      ds = deals.map (fun e => if e.id = id then d else e) := by
  refine ⟨_, _, transitionStatus_ok deals id now s d0 hs hfind, rfl, ?_, ?_, rfl⟩
  · unfold closedFor
    split <;> simp_all
  · intro hn
    simp [closedFor, hn]

/-- C2: witness transitioning a concrete deal to "gagne". -/
theorem transition_sets_closed_iff_won_or_lost_witness :
    ∃ d ds, transitionStatus [dealW] 1 "gagne" 9 = (.ok d, ds) ∧ d.status = "gagne" ∧
      ((∃ t, d.closed_at = some t) ↔ ("gagne" = "gagne" ∨ "gagne" = "perdu")) ∧
      (¬ ("gagne" = "gagne" ∨ "gagne" = "perdu") → d.closed_at = none) ∧
      ds = [dealW].map (fun e => if e.id = 1 then d else e) :=
  transition_sets_closed_iff_won_or_lost [dealW] 1 9 "gagne" dealW (by decide) rfl

/-- The statuses of the by-status rows are the canonical enumeration
filtered to the statuses present in the table. -/
theorem dealsByStatus_statuses (deals : List Deal) :
    (dealsByStatus deals).map StatusRow.status =
      ALLOWED_STATUSES.filter (fun s => deals.any (fun d => d.status == s)) := by
  unfold dealsByStatus
  rw [List.map_map]
  exact List.map_id' _

/-- C3: the stats by-status breakdown lists exactly one row per status
present in the data, in the order of the canonical funnel sequence
(its status column is a nodup sublist of the enumeration), for any store
whose statuses lie in the enumeration. -/
theorem stats_by_status_funnel_order (deals : List Deal) (h : ValidStore deals) :
    List.Sublist ((dealsByStatus deals).map StatusRow.status) ALLOWED_STATUSES
    ∧ ((dealsByStatus deals).map StatusRow.status).Nodup
    ∧ (∀ s, s ∈ (dealsByStatus deals).map StatusRow.status ↔ ∃ d ∈ deals, d.status = s) := by
  rw [dealsByStatus_statuses]
  refine ⟨List.filter_sublist _, List.Nodup.filter _ (by decide), ?_⟩
  intro s
  rw [List.mem_filter]
  constructor
  · rintro ⟨-, hany⟩
    obtain ⟨d, hd, hds⟩ := List.any_eq_true.mp hany
    exact ⟨d, hd, beq_iff_eq.mp hds⟩
  · rintro ⟨d, hd, rfl⟩
    exact ⟨h d hd, List.any_eq_true.mpr ⟨d, hd, beq_iff_eq.mpr rfl⟩⟩

/-- C3: witness — statuses inserted as perdu, prospect, gagne come back
in funnel order prospect, gagne, perdu. -/
theorem stats_by_status_funnel_order_witness :
    (List.Sublist ((dealsByStatus dealsPPG).map StatusRow.status) ALLOWED_STATUSES
     ∧ ((dealsByStatus dealsPPG).map StatusRow.status).Nodup
     ∧ (∀ s, s ∈ (dealsByStatus dealsPPG).map StatusRow.status ↔ ∃ d ∈ dealsPPG, d.status = s))
    ∧ (dealsByStatus dealsPPG).map StatusRow.status = ["prospect", "gagne", "perdu"] :=
  ⟨stats_by_status_funnel_order dealsPPG (by unfold ValidStore; decide), by decide⟩

/-- C4: the stats summary counts all deals, sums amount and
weighted_amount over all deals, sums amount over won deals, counts deals
whose status is neither gagne nor perdu, and every aggregate of the empty
store is 0, never null. -/
theorem stats_summary_fields (deals : List Deal) :
    (dealsSummary deals).total_deals = deals.length
    ∧ (dealsSummary deals).total_value = deals.foldr (fun d t => d.amount + t) 0
    ∧ (dealsSummary deals).weighted_value = deals.foldr (fun d t => d.weighted_amount + t) 0
    ∧ (dealsSummary deals).won_value =
        deals.foldr (fun d t => if d.status = "gagne" then d.amount + t else t) 0
    ∧ (dealsSummary deals).active_deals =
        deals.countP (fun d => decide (d.status ∉ (["gagne", "perdu"] : List String)))
    ∧ dealsSummary [] = ⟨0, 0, 0, 0, 0⟩ := by
  refine ⟨rfl, ?_, ?_, ?_, ?_, rfl⟩
  · show (deals.map Deal.amount).sum = _
    induction deals with
    | nil => simp
    | cons d l ih => simp [ih]
  · show (deals.map Deal.weighted_amount).sum = _
    induction deals with
    | nil => simp
    | cons d l ih => simp [ih]
  · show ((deals.filter (fun d => d.status == "gagne")).map Deal.amount).sum = _
    induction deals with
    | nil => simp
    | cons d l ih =>
      by_cases hd : d.status = "gagne" <;>
        simp [List.filter_cons, hd, ih]
  · show (deals.filter (fun d => d.status != "gagne" && d.status != "perdu")).length = _
    induction deals with
    | nil => simp
    | cons d l ih =>
      by_cases h1 : d.status = "gagne" <;> by_cases h2 : d.status = "perdu" <;>
        simp [List.filter_cons, List.countP_cons, h1, h2, ih]

/-- C5 (amended): creation fails with ValidationError exactly when the
title is empty or whitespace-only; fails with InvalidStatus exactly when
the title is good and a NON-EMPTY status outside the enumeration is given
(an empty-string status is falsy in JavaScript and defaults to prospect
instead of being rejected); otherwise it persists and returns the full
created record, with status defaulted to prospect when absent, amount
defaulted to 0 when absent, and closed_at = null. -/
theorem create_validation_and_defaults
    (deals : List Deal) (newId now : Nat) (prob : Rat) (b bOk : DealBody)
    (hOk1 : titleValue bOk.title ≠ "")
    (hOk2 : statusOrDefault bOk.status ∈ ALLOWED_STATUSES) :
    ((createDeal deals b newId now prob).1 = .error .validationError ↔
      titleValue b.title = "")
    ∧ ((createDeal deals b newId now prob).1 = .error .invalidStatus ↔
        (titleValue b.title ≠ "" ∧ ∃ s, b.status = some s ∧ s ≠ "" ∧ s ∉ ALLOWED_STATUSES))
    ∧ (createDeal deals bOk newId now prob =
        (.ok (createdRow bOk newId now prob), deals ++ [createdRow bOk newId now prob]))
    ∧ ((createdRow bOk newId now prob).status = statusOrDefault bOk.status)
    ∧ (bOk.status = none → (createdRow bOk newId now prob).status = "prospect")
    ∧ ((createdRow bOk newId now prob).amount = bOk.amount.getD 0)
    ∧ (bOk.amount = none → (createdRow bOk newId now prob).amount = 0)
    ∧ ((createdRow bOk newId now prob).closed_at = none)
    ∧ ((createdRow bOk newId now prob).title = titleValue bOk.title)
    ∧ ((createdRow bOk newId now prob).id = newId) := by
  refine ⟨createDeal_validation_iff deals b newId now prob,
    createDeal_invalid_iff deals b newId now prob,
    createDeal_ok deals bOk newId now prob hOk1 hOk2,
    rfl, ?_, rfl, ?_, rfl, rfl, rfl⟩
  · intro h
    simp [createdRow, statusOrDefault, h]
  · intro h
    simp [createdRow, h]

/-- C5: witness at a whitespace-only-title body and a fully-specified
valid body. -/
theorem create_validation_and_defaults_witness :
    ((createDeal [] bodyBlankTitle 1 5 0).1 = .error .validationError ↔
      titleValue bodyBlankTitle.title = "")
    ∧ ((createDeal [] bodyBlankTitle 1 5 0).1 = .error .invalidStatus ↔
        (titleValue bodyBlankTitle.title ≠ "" ∧
          ∃ s, bodyBlankTitle.status = some s ∧ s ≠ "" ∧ s ∉ ALLOWED_STATUSES))
    ∧ (createDeal [] bodyOk 1 5 0 =
        (.ok (createdRow bodyOk 1 5 0), [] ++ [createdRow bodyOk 1 5 0]))
    ∧ ((createdRow bodyOk 1 5 0).status = statusOrDefault bodyOk.status)
    ∧ (bodyOk.status = none → (createdRow bodyOk 1 5 0).status = "prospect")
    ∧ ((createdRow bodyOk 1 5 0).amount = bodyOk.amount.getD 0)
    ∧ (bodyOk.amount = none → (createdRow bodyOk 1 5 0).amount = 0)
    ∧ ((createdRow bodyOk 1 5 0).closed_at = none)
    ∧ ((createdRow bodyOk 1 5 0).title = titleValue bodyOk.title)
    ∧ ((createdRow bodyOk 1 5 0).id = 1) :=
  create_validation_and_defaults [] 1 5 0 bodyBlankTitle bodyOk (by decide) (by decide)

/-- C5: counterexample to the claim as stated — the empty-string status
is outside the enumeration yet creation does not fail with InvalidStatus:
it succeeds with the default status prospect. -/
theorem create_empty_status_counterexample :
    ("" ∉ ALLOWED_STATUSES)
    ∧ bodyEmptyStatus.status = some ""
    ∧ createDeal [] bodyEmptyStatus 1 5 0 =
        (.ok dealEmptyStatusCreated, [dealEmptyStatusCreated])
    ∧ dealEmptyStatusCreated.status = "prospect" :=
  ⟨by decide, rfl, rfl, rfl⟩

/-- C6: full-replace semantics of update — every optional field not
supplied is overwritten with its null/default value, status defaults to
prospect, amount to 0, closed_at is recomputed from the new status; and
update fails with NotFound when the id does not exist. -/
theorem update_full_replace
    (deals : List Deal) (id now : Nat) (b : DealBody) (d0 : Deal)
    (ht : titleValue b.title ≠ "")
    (hs : invalidGivenStatus b.status = false)
    (hfind : deals.find? (fun d => d.id == id) = some d0)
    (deals₂ : List Deal) (hnone : deals₂.find? (fun d => d.id == id) = none) :
    (updateDeal deals id b now =
      (.ok (updatedRow d0 b now),
       deals.map (fun e => if e.id = id then updatedRow d0 b now else e)))
    ∧ (b.description = none → (updatedRow d0 b now).description = none)
    ∧ (b.contact_id = none → (updatedRow d0 b now).contact_id = none)
    ∧ (b.company_id = none → (updatedRow d0 b now).company_id = none)
    ∧ (b.assigned_to = none → (updatedRow d0 b now).assigned_to = none)
    ∧ (b.expected_close_date = none → (updatedRow d0 b now).expected_close_date = none)
    ∧ (b.status = none → (updatedRow d0 b now).status = "prospect")
    ∧ (b.amount = none → (updatedRow d0 b now).amount = 0)
    ∧ ((updatedRow d0 b now).closed_at = closedFor (statusOrDefault b.status) now)
    ∧ ((updatedRow d0 b now).closed_at ≠ none ↔
        ((updatedRow d0 b now).status = "gagne" ∨ (updatedRow d0 b now).status = "perdu"))
    ∧ (updateDeal deals₂ id b now = (.error .notFound, deals₂)) := by
  refine ⟨updateDeal_ok deals id now b d0 ht hs hfind,
    ?_, ?_, ?_, ?_, ?_, ?_, ?_, rfl, ?_,
    updateDeal_notFound deals₂ id now b ht hs hnone⟩
  · intro h
    simp [updatedRow, trimOrNull, h]
  · intro h
    simp [updatedRow, idOrNull, h]
  · intro h
    simp [updatedRow, idOrNull, h]
  · intro h
    simp [updatedRow, idOrNull, h]
  · intro h
    simp [updatedRow, dateOrNull, h]
  · intro h
    simp [updatedRow, statusOrDefault, h]
  · intro h
    simp [updatedRow, h]
  · exact closedFor_ne_none (statusOrDefault b.status) now

/-- C6: witness updating a fully-populated deal with a title-only body:
every optional field is wiped, the status falls back to prospect. -/
theorem update_full_replace_witness :
    (updateDeal [dealW] 1 bodyMin 9 =
      (.ok (updatedRow dealW bodyMin 9),
       [dealW].map (fun e => if e.id = 1 then updatedRow dealW bodyMin 9 else e)))
    ∧ (bodyMin.description = none → (updatedRow dealW bodyMin 9).description = none)
    ∧ (bodyMin.contact_id = none → (updatedRow dealW bodyMin 9).contact_id = none)
    ∧ (bodyMin.company_id = none → (updatedRow dealW bodyMin 9).company_id = none)
    ∧ (bodyMin.assigned_to = none → (updatedRow dealW bodyMin 9).assigned_to = none)
    ∧ (bodyMin.expected_close_date = none →
        (updatedRow dealW bodyMin 9).expected_close_date = none)
    ∧ (bodyMin.status = none → (updatedRow dealW bodyMin 9).status = "prospect")
    ∧ (bodyMin.amount = none → (updatedRow dealW bodyMin 9).amount = 0)
    ∧ ((updatedRow dealW bodyMin 9).closed_at = closedFor (statusOrDefault bodyMin.status) 9)
    ∧ ((updatedRow dealW bodyMin 9).closed_at ≠ none ↔
        ((updatedRow dealW bodyMin 9).status = "gagne" ∨
         (updatedRow dealW bodyMin 9).status = "perdu"))
    ∧ (updateDeal [] 1 bodyMin 9 = (.error .notFound, [])) :=
  update_full_replace [dealW] 1 9 bodyMin dealW (by decide) rfl rfl [] rfl

/-- C7: the status transition fails with InvalidStatus for a status
outside the enumeration leaving the whole table (hence the deal record)
unchanged; fails with NotFound when the id is absent; and on success
modifies only status and closed_at of the matched row, leaving its other
fields and every other row untouched. -/
theorem transition_frame
    (deals : List Deal) (id now : Nat) (s sBad : String) (d0 : Deal)
    (hbad : sBad ∉ ALLOWED_STATUSES)
    (hok : s ∈ ALLOWED_STATUSES)
    (hfind : deals.find? (fun d => d.id == id) = some d0)
    (deals₂ : List Deal) (hnone : deals₂.find? (fun d => d.id == id) = none) :
    (transitionStatus deals id sBad now = (.error .invalidStatus, deals))
    ∧ (transitionStatus deals₂ id s now = (.error .notFound, deals₂))
    ∧ (∃ d ds, transitionStatus deals id s now = (.ok d, ds)
        ∧ d.title = d0.title ∧ d.description = d0.description ∧ d.amount = d0.amount
        ∧ d.probability = d0.probability ∧ d.weighted_amount = d0.weighted_amount
        ∧ d.contact_id = d0.contact_id ∧ d.company_id = d0.company_id
        ∧ d.assigned_to = d0.assigned_to
        ∧ d.expected_close_date = d0.expected_close_date
        ∧ d.created_at = d0.created_at ∧ d.id = d0.id
        ∧ d.status = s ∧ d.closed_at = closedFor s now
        ∧ ds = deals.map (fun e => if e.id = id then d else e)
        ∧ (∀ e ∈ deals, e.id ≠ id → e ∈ ds)) := by
  refine ⟨transitionStatus_invalid deals id now sBad hbad,
    transitionStatus_notFound deals₂ id now s hok hnone,
    _, _, transitionStatus_ok deals id now s d0 hok hfind,
    rfl, rfl, rfl, rfl, rfl, rfl, rfl, rfl, rfl, rfl, rfl, rfl, rfl, rfl, ?_⟩
  intro e he hne
  have : (if e.id = id then { d0 with status := s, closed_at := closedFor s now } else e) = e :=
    if_neg hne
  exact this ▸ List.mem_map_of_mem _ he

/-- C7: witness — "unknown" is rejected with the store intact, a missing
id gives NotFound, and a transition to "prospect" keeps every other field
of the concrete deal. -/
theorem transition_frame_witness :
    (transitionStatus [dealW] 1 "unknown" 9 = (.error .invalidStatus, [dealW]))
    ∧ (transitionStatus [] 1 "prospect" 9 = (.error .notFound, []))
    ∧ (∃ d ds, transitionStatus [dealW] 1 "prospect" 9 = (.ok d, ds)
        ∧ d.title = dealW.title ∧ d.description = dealW.description ∧ d.amount = dealW.amount
        ∧ d.probability = dealW.probability ∧ d.weighted_amount = dealW.weighted_amount
        ∧ d.contact_id = dealW.contact_id ∧ d.company_id = dealW.company_id
        ∧ d.assigned_to = dealW.assigned_to
        ∧ d.expected_close_date = dealW.expected_close_date
        ∧ d.created_at = dealW.created_at ∧ d.id = dealW.id
        ∧ d.status = "prospect" ∧ d.closed_at = closedFor "prospect" 9
        ∧ ds = [dealW].map (fun e => if e.id = 1 then d else e)
        ∧ (∀ e ∈ [dealW], e.id ≠ 1 → e ∈ ds)) :=
  transition_frame [dealW] 1 9 "prospect" "unknown" dealW (by decide) (by decide) rfl [] rfl

/-- C8: for every deal read back through the store, the weighted_amount
field equals amount × probability / 100 exactly (the model is over ℚ, so
the floating-rounding tolerance of the spec is met with exact equality);
the row the INSERT creates satisfies the same invariant. -/
theorem weighted_amount_consistent (d : Deal) (b : DealBody) (newId now : Nat) (prob : Rat) :
    (readDeal d).weighted_amount =
      (readDeal d).amount * (readDeal d).probability / 100
    ∧ (createdRow b newId now prob).weighted_amount =
        (createdRow b newId now prob).amount * (createdRow b newId now prob).probability / 100 :=
  ⟨rfl, rfl⟩

/-- Characterization of the boolean prefix test. -/
theorem charsStartWith_iff (w : List Char) : ∀ s, charsStartWith w s = true ↔ ∃ t, s = w ++ t := by
  induction w with
  | nil =>
    intro s
    simp [charsStartWith]
  | cons c w ih =>
    intro s
    cases s with
    | nil =>
      simp [charsStartWith]
    | cons c' s =>
      simp only [charsStartWith, Bool.and_eq_true, beq_iff_eq, ih, List.cons_append,
        List.cons.injEq]
      constructor
      · rintro ⟨rfl, t, rfl⟩
        exact ⟨t, rfl, rfl⟩
      · rintro ⟨t, rfl, rfl⟩
        exact ⟨rfl, t, rfl⟩

/-- Characterization of the boolean substring-containment test: `w`
occurs in `s` iff `s` splits around a contiguous copy of `w`. -/
theorem charsContain_iff (w : List Char) : ∀ s, charsContain w s = true ↔
    ∃ s₁ s₂, s = s₁ ++ (w ++ s₂) := by
  intro s
  induction s with
  | nil =>
    simp only [charsContain, charsStartWith_iff]
    constructor
    · rintro ⟨t, ht⟩
      exact ⟨[], t, by simpa using ht⟩
    · rintro ⟨s₁, s₂, h⟩
      rw [List.nil_eq, List.append_eq_nil] at h
      exact ⟨s₂, by simp [h.1, h.2]⟩
  | cons c s ih =>
    simp only [charsContain, Bool.or_eq_true, charsStartWith_iff, ih]
    constructor
    · rintro (⟨t, ht⟩ | ⟨s₁, s₂, hs⟩)
      · exact ⟨[], t, by simpa using ht⟩
      · exact ⟨c :: s₁, s₂, by simp [hs]⟩
    · rintro ⟨s₁, s₂, h⟩
      cases s₁ with
      | nil => exact Or.inl ⟨s₂, by simpa using h⟩
      | cons a s₁ =>
        rw [List.cons_append] at h
        injection h with h1 h2
        exact Or.inr ⟨s₁, s₂, h2⟩

/-- The empty suffix is among the suffixes of every list. -/
theorem nil_mem_suffixes : ∀ s : List Char, [] ∈ suffixes s := by
  intro s
  induction s with
  | nil => simp [suffixes]
  | cons c s ih => simp [suffixes, ih]

/-- An exhausted LIKE pattern matches exactly the empty text. -/
theorem likeMatch_nil (t : List Char) : likeMatch [] t = t.isEmpty := rfl

/-- One-step unfolding of the LIKE matcher on a non-empty pattern. -/
theorem likeMatch_cons (c : Char) (p s : List Char) :
    likeMatch (c :: p) s =
      if c = '%' then (suffixes s).any (fun t => likeMatch p t)
      else if c = '\\' then
        match p, s with
        | c2 :: p', c' :: s' => c2 == c' && likeMatch p' s'
        | _, _ => false
      else if c = '_' then
        match s with
        | [] => false
        | _ :: s' => likeMatch p s'
      else
        match s with
        | [] => false
        | c' :: s' => c == c' && likeMatch p s' := by
  conv_lhs => unfold likeMatch

/-- The pattern consisting of a single percent matches everything. -/
theorem likeMatch_pct_nil (s : List Char) : likeMatch ['%'] s = true := by
  rw [likeMatch_cons, if_pos rfl]
  exact List.any_eq_true.mpr ⟨[], nil_mem_suffixes s, rfl⟩

/-- A metacharacter-free pattern followed by a trailing percent matches
exactly the texts that start with the literal pattern. -/
theorem likeMatch_lit (w : List Char) (hw : NoLikeMeta w) :
    ∀ s, likeMatch (w ++ ['%']) s = charsStartWith w s := by
  induction w with
  | nil =>
    intro s
    rw [List.nil_append, likeMatch_pct_nil]
    rfl
  | cons c w ih =>
    have hc := hw c (List.mem_cons_self c w)
    have hw' : NoLikeMeta w := fun x hx => hw x (List.mem_cons_of_mem c hx)
    intro s
    cases s with
    | nil =>
      rw [List.cons_append, likeMatch_cons, if_neg hc.1, if_neg hc.2.2, if_neg hc.2.1]
      rfl
    | cons c' s =>
      rw [List.cons_append, likeMatch_cons, if_neg hc.1, if_neg hc.2.2, if_neg hc.2.1]
      show (c == c' && likeMatch (w ++ ['%']) s) = (c == c' && charsStartWith w s)
      rw [ih hw' s]

/-- Substring containment as a search over suffixes. -/
theorem charsContain_eq_any (w : List Char) : ∀ s,
    charsContain w s = (suffixes s).any (fun t => charsStartWith w t) := by
  intro s
  induction s with
  | nil => simp [charsContain, suffixes]
  | cons c s ih => simp [charsContain, suffixes, ih]

/-- The full handler pattern — percent, metacharacter-free body, percent —
matches exactly the texts containing the body contiguously. -/
theorem likeMatch_pattern_eq (w : List Char) (hw : NoLikeMeta w) (s : List Char) :
    likeMatch ('%' :: (w ++ ['%'])) s = charsContain w s := by
  have hfun : (fun t => likeMatch (w ++ ['%']) t) = fun t => charsStartWith w t :=
    funext fun t => likeMatch_lit w hw t
  calc likeMatch ('%' :: (w ++ ['%'])) s
      = (suffixes s).any (fun t => likeMatch (w ++ ['%']) t) := by
        rw [likeMatch_cons, if_pos rfl]
    _ = (suffixes s).any (fun t => charsStartWith w t) := by rw [hfun]
    _ = charsContain w s := (charsContain_eq_any w s).symm

/-- For a metacharacter-free search string, the handler's LIKE test on a
title is exactly case-insensitive substring containment. -/
theorem qMatch_iff (q title : String) (hw : NoLikeMeta (lowerStr q)) :
    likeMatch (likePattern q) (lowerStr title) = true ↔
      ∃ s₁ s₂, lowerStr title = s₁ ++ (lowerStr q ++ s₂) := by
  rw [likePattern, likeMatch_pattern_eq (lowerStr q) hw, charsContain_iff]

/-- Lower-casing an upper-case basic-latin letter adds 32 to its code
point. -/
theorem toLower_toNat_of_upper (c : Char) (h : 65 ≤ c.toNat ∧ c.toNat ≤ 90) :
    (Char.toLower c).toNat = c.toNat + 32 := by
  have hv : Nat.isValidChar (c.toNat + 32) := Or.inl (by omega)
  rw [Char.toLower]
  rw [if_pos ⟨h.1, h.2⟩]
  rw [Char.ofNat, dif_pos hv]
  simp [Char.ofNatAux, Char.toNat, UInt32.toNat]

/-- Lower-casing fixes every character outside the upper-case range. -/
theorem toLower_eq_self_of_not_upper (c : Char) (h : ¬ (65 ≤ c.toNat ∧ c.toNat ≤ 90)) :
    Char.toLower c = c := by
  rw [Char.toLower, if_neg h]

/-- Lower-casing never introduces a LIKE metacharacter. -/
theorem noLikeMeta_lowerStr (q : String) (h : NoLikeMeta q.toList) :
    NoLikeMeta (lowerStr q) := by
  intro c hc
  obtain ⟨c0, hc0, rfl⟩ := List.mem_map.mp hc
  obtain ⟨h1, h2, h3⟩ := h c0 hc0
  by_cases hr : 65 ≤ c0.toNat ∧ c0.toNat ≤ 90
  · have hn := toLower_toNat_of_upper c0 hr
    have hp : ('%' : Char).toNat = 37 := by decide
    have hu : ('_' : Char).toNat = 95 := by decide
    have hb : ('\\' : Char).toNat = 92 := by decide
    refine ⟨?_, ?_, ?_⟩ <;> intro heq <;>
      [rw [heq, hp] at hn; rw [heq, hu] at hn; rw [heq, hb] at hn] <;> omega
  · rw [toLower_eq_self_of_not_upper c0 hr]
    exact ⟨h1, h2, h3⟩

/-- Sorted insertion permutes to consing. -/
theorem insertByCreated_perm (d : Deal) : ∀ l, List.Perm (insertByCreated d l) (d :: l)
  | [] => List.Perm.refl _
  | e :: es => by
    rw [insertByCreated]
    split
    · exact ((insertByCreated_perm d es).cons e).trans (List.Perm.swap d e es)
    · exact List.Perm.refl _

/-- The ORDER BY only permutes the filtered rows. -/
theorem sortByCreatedDesc_perm (l : List Deal) : List.Perm (sortByCreatedDesc l) l := by
  induction l with
  | nil => exact List.Perm.refl _
  | cons d l ih =>
    exact (insertByCreated_perm d (sortByCreatedDesc l)).trans (ih.cons d)

/-- Membership in a q-only listing is membership in the table plus the
LIKE test on the lower-cased title. -/
theorem mem_listDeals_q (deals : List Deal) (q : String) (d : Deal) (hq : q ≠ "") :
    d ∈ listDeals deals ⟨none, none, some q⟩ ↔
      d ∈ deals ∧ likeMatch (likePattern q) (lowerStr d.title) = true := by
  unfold listDeals applyStatusFilter applyAssignedFilter applyQFilter
  rw [(sortByCreatedDesc_perm _).mem_iff]
  simp only [if_neg hq]
  exact List.mem_filter

/-- C9 (amended): for a non-empty q containing no LIKE metacharacter
(percent, underscore, backslash), the q-only listing returns exactly the
deals whose lower-cased title contains the lower-cased q as a contiguous
substring — a condition on the title alone.  (With metacharacters in q
the filter is a LIKE-pattern match instead, see the counterexample.) -/
theorem list_q_substring_filter (deals : List Deal) (q : String) (d : Deal)
    (hq : q ≠ "") (hmeta : NoLikeMeta q.toList) :
    d ∈ listDeals deals ⟨none, none, some q⟩ ↔
      d ∈ deals ∧ ∃ s₁ s₂, lowerStr d.title = s₁ ++ (lowerStr q ++ s₂) := by
  rw [mem_listDeals_q deals q d hq,
    qMatch_iff q d.title (noLikeMeta_lowerStr q hmeta)]

/-- C9: witness — searching "B" (upper-case) finds the deal titled "abc",
and the equivalence instantiates at it. -/
theorem list_q_substring_filter_witness :
    (dealAbc ∈ listDeals [dealAbc] ⟨none, none, some "B"⟩ ↔
      dealAbc ∈ [dealAbc] ∧ ∃ s₁ s₂, lowerStr dealAbc.title = s₁ ++ (lowerStr "B" ++ s₂))
    ∧ dealAbc ∈ listDeals [dealAbc] ⟨none, none, some "B"⟩ :=
  ⟨list_q_substring_filter [dealAbc] "B" dealAbc (by decide) (by unfold NoLikeMeta; decide),
   by decide⟩

/-- C9: counterexample to the claim as stated for arbitrary q — the
query "a_c" is returned for the title "abc" because the unescaped
underscore acts as a LIKE wildcard, although "a_c" is not a substring of
"abc". -/
theorem list_q_wildcard_counterexample :
    dealAbc ∈ listDeals [dealAbc] ⟨none, none, some "a_c"⟩
    ∧ ¬ (∃ s₁ s₂, lowerStr dealAbc.title = s₁ ++ (lowerStr "a_c" ++ s₂)) := by
  constructor
  · decide
  · intro hex
    have : charsContain (lowerStr "a_c") (lowerStr dealAbc.title) = true :=
      (charsContain_iff _ _).mpr hex
    simp only [dealAbc, lowerStr] at this
    exact absurd this (by decide)

/-- C10: an update whose body omits the status (or sends the empty
string) overwrites the previous status with the default prospect and
clears closed_at, whatever the deal's previous status was. -/
theorem update_defaults_status_prospect
    (deals : List Deal) (id now : Nat) (b : DealBody) (d0 : Deal)
    (ht : titleValue b.title ≠ "")
    (hst : b.status = none ∨ b.status = some "")
    (hfind : deals.find? (fun d => d.id == id) = some d0) :
    ∃ ds, updateDeal deals id b now = (.ok (updatedRow d0 b now), ds)
      ∧ (updatedRow d0 b now).status = "prospect"
      ∧ (updatedRow d0 b now).closed_at = none := by
  have hs : invalidGivenStatus b.status = false := by
    rcases hst with h | h <;> simp [invalidGivenStatus, h]
  have hsd : statusOrDefault b.status = "prospect" := by
    rcases hst with h | h <;> simp [statusOrDefault, h]
  refine ⟨_, updateDeal_ok deals id now b d0 ht hs hfind, ?_, ?_⟩
  · simp [updatedRow, hsd]
  · simp [updatedRow, hsd, closedFor]

/-- C10: witness — updating the won deal `dealW` with a body that has no
status stores prospect and a null closed_at. -/
theorem update_defaults_status_prospect_witness :
    ∃ ds, updateDeal [dealW] 1 bodyMin 9 = (.ok (updatedRow dealW bodyMin 9), ds)
      ∧ (updatedRow dealW bodyMin 9).status = "prospect"
      ∧ (updatedRow dealW bodyMin 9).closed_at = none :=
  update_defaults_status_prospect [dealW] 1 9 bodyMin dealW (by decide) (Or.inl rfl) rfl
